import Mathlib

/-!
Verification of the spreadsheet record engine of the gestor_audiencias_api
repository (src/excel_utils.py), as a shallow embedding.

A worksheet is modelled as a list of rows (row r of the sheet is entry
r-1 of the list); a row maps a 1-based column index to a string cell
value.  The empty string models an empty cell (openpyxl returns None for
an empty cell and every value the engine writes is a string; Python
truthiness of a cell value is therefore the test against the empty
string).  openpyxl's delete_rows removes the given rows and shifts all
later rows upward, which the list splice models directly; the source
itself relies on this shifting (excel_utils.py line 246 deletes bottom-up
"para no desplazar filas").  Styling (fonts, fills, borders, merges'
visual effect, row heights) carries no cell values and is not modelled,
except that merging a range discards the values of all but the top-left
cell, which exportar_con_firma's signature merge does model.
-/

/-! ## Python string primitives (ASCII-faithful models) -/

/-- Characters Python's default str.strip and strptime's whitespace
treat as whitespace (ASCII range). -/
def pyWs (c : Char) : Bool :=
  c = ' ' || c = '\t' || c = '\n' || c = '\r' || c = '\x0b' || c = '\x0c'

/-- Model of Python str.strip() with no argument. -/
def pyStrip (s : String) : String :=
  ⟨((s.data.dropWhile pyWs).reverse.dropWhile pyWs).reverse⟩

/-- Model of Python str.upper() on the ASCII letters the engine uses. -/
def pyUpper (s : String) : String :=
  ⟨s.data.map Char.toUpper⟩

/-- Model of Python str.startswith. -/
def pyStartsWith (pre s : String) : Bool :=
  pre.data.isPrefixOf s.data

/-- Model of Python str.endswith. -/
def pyEndsWith (suf s : String) : Bool :=
  suf.data.reverse.isPrefixOf s.data.reverse

/-- Split a character list at every occurrence of the separator. -/
def splitChars (sep : Char) : List Char → List (List Char)
  | [] => [[]]
  | c :: cs =>
    let rest := splitChars sep cs
    if c = sep then [] :: rest
    else
      match rest with
      | [] => [[c]]
      | p :: ps => (c :: p) :: ps

/-- Numeric value of a non-empty all-digit character list, none otherwise. -/
def digitsVal (l : List Char) : Option Nat :=
  if l ≠ [] ∧ l.all Char.isDigit then
    some (l.foldl (fun acc c => acc * 10 + (c.toNat - 48)) 0)
  else none

/-! ## Dates and times: model of
datetime.strptime(fecha ++ " " ++ hora, "%d/%m/%Y %H:%M")
(excel_utils.py, parse_fecha_hora, lines 101-114).

CPython compiles that format to the anchored regex
(3[01]|[12]\d|0[1-9]|[1-9]) / (1[0-2]|0[1-9]|[1-9]) / (\d\d\d\d) \s+
(2[0-3]|[0-1]\d|\d) : ([0-5]\d|\d) and then datetime(...) validates the
day against the month length and the year against MINYEAR = 1.  Because
the combined string is fecha ++ " " ++ hora, trailing whitespace of
fecha and leading whitespace of hora are absorbed by the \s+. -/

/-- Gregorian leap-year test, as datetime uses. -/
def esBisiesto (y : Nat) : Bool :=
  y % 4 = 0 && (y % 100 ≠ 0 || y % 400 = 0)

/-- Number of days of month m in year y (m between 1 and 12). -/
def diasDelMes (m y : Nat) : Nat :=
  if m = 2 then (if esBisiesto y then 29 else 28)
  else if m = 4 || m = 6 || m = 9 || m = 11 then 30
  else 31

/-- A parsed instant, datetime's sort-relevant fields. -/
structure Instante where
  anio : Nat
  mes : Nat
  dia : Nat
  hh : Nat
  mm : Nat
deriving DecidableEq, Repr

/-- Encoding of an instant as a natural number, strictly monotone in the
lexicographic (year, month, day, hour, minute) order that datetime
comparison uses, given the field bounds parsing enforces. -/
def Instante.clave (t : Instante) : Nat :=
  (((t.anio * 13 + t.mes) * 32 + t.dia) * 24 + t.hh) * 60 + t.mm

/-- Accept a digit group: length between lo2 digits as the strptime
regex requires (1-2 digits for d/m/H/M, exactly 4 for Y), with the value
within the regex's numeric range. -/
def grupoNum (l : List Char) (minLen maxLen lo hi : Nat) : Option Nat :=
  match digitsVal l with
  | none => none
  | some v =>
    if minLen ≤ l.length ∧ l.length ≤ maxLen ∧ lo ≤ v ∧ v ≤ hi then some v
    else none

/-- Parse "d/m/yyyy" (the date part of the combined string, having
dropped the whitespace absorbed by the format's \s+). -/
def parseFecha (l : List Char) : Option (Nat × Nat × Nat) :=
  match splitChars '/' l with
  | [ds, ms, ys] =>
    match grupoNum ds 1 2 1 31, grupoNum ms 1 2 1 12, grupoNum ys 4 4 1 9999 with
    | some d, some m, some y =>
      if d ≤ diasDelMes m y then some (d, m, y) else none
    | _, _, _ => none
  | _ => none

/-- Parse "H:M" (the time part of the combined string). -/
def parseHora (l : List Char) : Option (Nat × Nat) :=
  match splitChars ':' l with
  | [hs, ms] =>
    match grupoNum hs 1 2 0 23, grupoNum ms 1 2 0 59 with
    | some h, some mi => some (h, mi)
    | _, _ => none
  | _ => none

/-- Model of parse_fecha_hora (excel_utils.py lines 101-114): requires
both fields non-empty (Python truthiness), then strptime on
fecha ++ " " ++ hora with format "%d/%m/%Y %H:%M". -/
def parseFechaHora (fecha hora : String) : Except String Instante :=
  if fecha = "" ∨ hora = "" then
    .error "Los campos \x27fecha\x27 y \x27hora\x27 son obligatorios."
  else
    match parseFecha (fecha.data.reverse.dropWhile pyWs).reverse,
          parseHora (hora.data.dropWhile pyWs) with
    | some (d, m, y), some (h, mi) =>
      .ok { anio := y, mes := m, dia := d, hh := h, mm := mi }
    | _, _ =>
      .error ("Fecha y hora inválidas: \x27" ++ fecha ++ " " ++ hora ++
        "\x27. Formato esperado: dd/mm/yyyy HH:MM")

/-! ## The record (one hearing entry).

The HTTP layer hands the engine a dict; the engine reads exactly the
keys below, using .get with falsy tests, so a missing key and an empty
string behave identically and both are modelled by the empty string.
The reasons list is d.get("motivos", []), notes d.get("observaciones", ""). -/

structure Audiencia where
  radicado : String
  tipo_audiencia : String
  fecha : String
  hora : String
  juzgado : String
  se_realizo : String
  motivos : List String
  observaciones : String
deriving DecidableEq, Repr

/-- The fixed vocabulary TIPOS_AUDIENCIA_VALIDOS (excel_utils.py lines 31-50). -/
def TIPOS_AUDIENCIA_VALIDOS : List String :=
  ["Alegatos de conclusión",
   "Audiencia concentrada",
   "Audiencia de acusación",
   "Audiencia de conciliación",
   "Audiencia de control de legalidad",
   "Audiencia de individualización de pena",
   "Audiencia de imputación",
   "Audiencia de incidente de reparación integral",
   "Audiencia de juicio oral",
   "Audiencia de medidas de aseguramiento",
   "Audiencia de nulidad",
   "Audiencia de preclusión",
   "Audiencia de prórroga",
   "Audiencia de revisión de medida",
   "Audiencia de verificación de cumplimiento",
   "Audiencia preliminar",
   "Audiencia preparatoria",
   "Otra"]

/-- Model of validar_campos_audiencia (excel_utils.py lines 116-146):
requires the six obligatory fields truthy in source order, membership of
the stripped hearing type in the fixed list, strip().upper() of
se_realizo in [SI, NO]; on success returns the record with se_realizo
and tipo_audiencia normalized (the source mutates the dict in place). -/
def validarCamposAudiencia (d : Audiencia) : Except String Audiencia :=
  if d.radicado = "" then .error "El campo \x27radicado\x27 es obligatorio."
  else if d.tipo_audiencia = "" then .error "El campo \x27tipo_audiencia\x27 es obligatorio."
  else if d.fecha = "" then .error "El campo \x27fecha\x27 es obligatorio."
  else if d.hora = "" then .error "El campo \x27hora\x27 es obligatorio."
  else if d.juzgado = "" then .error "El campo \x27juzgado\x27 es obligatorio."
  else if d.se_realizo = "" then .error "El campo \x27se_realizo\x27 es obligatorio."
  else
    let tipo := pyStrip d.tipo_audiencia
    if ¬ TIPOS_AUDIENCIA_VALIDOS.contains tipo then
      .error ("El tipo de audiencia \x27" ++ tipo ++ "\x27 no es válido. " ++
        "Debe ser uno de los siguientes valores: " ++
        String.intercalate ", " TIPOS_AUDIENCIA_VALIDOS)
    else
      let se := pyUpper (pyStrip d.se_realizo)
      if ¬ (se = "SI" ∨ se = "NO") then
        .error "El campo \x27se_realizo\x27 debe ser \x27SI\x27 o \x27NO\x27."
      else
        .ok { d with se_realizo := se, tipo_audiencia := tipo }

/-- One record's validation pass inside guardar_audiencias_excel
(lines 177-179): validar_campos_audiencia then parse_fecha_hora on the
(mutated) record; the record travels on, the parsed instant is dropped. -/
def checarAudiencia (d : Audiencia) : Except String Audiencia :=
  match validarCamposAudiencia d with
  | .error e => .error e
  | .ok dv =>
    match parseFechaHora dv.fecha dv.hora with
    | .error e => .error e
    | .ok _ => .ok dv

/-- The validation loop over the record list, stopping at the first
failing record (the first raised ValueError propagates). -/
def listaValidada : List Audiencia → Except String (List Audiencia)
  | [] => .ok []
  | d :: ds =>
    match checarAudiencia d with
    | .error e => .error e
    | .ok dv =>
      match listaValidada ds with
      | .error e => .error e
      | .ok dvs => .ok (dv :: dvs)

/-- Sort key used by sorted(datos, key=parse_fecha_hora, reverse=True):
the encoded parsed instant.  The sort runs only after every record
passed the validation loop, so the default value is never reached there. -/
def claveDe (d : Audiencia) : Nat :=
  match parseFechaHora d.fecha d.hora with
  | .ok t => t.clave
  | .error _ => 0

/-- Stable descending insertion: the element being inserted came before
every already-placed element in the input, so it goes after exactly the
elements of strictly larger key and before those of equal key, the order
CPython's stable sorted with reverse=True produces. -/
def insertaDesc (x : Audiencia) : List Audiencia → List Audiencia
  | [] => [x]
  | y :: ys => if claveDe x < claveDe y then y :: insertaDesc x ys else x :: y :: ys

/-- Model of sorted(datos, key=parse_fecha_hora, reverse=True): stable,
descending by parsed instant. -/
def ordenaDesc : List Audiencia → List Audiencia
  | [] => []
  | x :: xs => insertaDesc x (ordenaDesc xs)

/-! ## The worksheet model -/

/-- One worksheet row: 1-based column index to cell value. -/
abbrev Fila := Nat → String

/-- The empty row. -/
def filaVacia : Fila := fun _ => ""

/-- Update one column of a row. -/
def Fila.pon (row : Fila) (c : Nat) (v : String) : Fila :=
  fun x => if x = c then v else row x

/-- A worksheet: entry r-1 of the list is row r.  The list length models
openpyxl's max_row; cells outside the list are empty. -/
abbrev Hoja := List Fila

/-- Cell value at 1-based row r and column c. -/
def getCell (s : Hoja) (r c : Nat) : String :=
  (s.getD (r - 1) filaVacia) c

/-- Extend the sheet with empty rows until it has at least n rows, as
openpyxl does when a cell beyond max_row is written. -/
def rellenaHasta (s : Hoja) (n : Nat) : Hoja :=
  s ++ List.replicate (n - s.length) filaVacia

/-- Model of ws.cell(row=r, column=c, value=v). -/
def setCell (s : Hoja) (r c : Nat) (v : String) : Hoja :=
  let t := rellenaHasta s r
  t.set (r - 1) ((t.getD (r - 1) filaVacia).pon c v)

/-- Model of ws.delete_rows(idx, amount): removes rows idx..idx+amount-1
and shifts every later row up by amount. -/
def borraFilas (s : Hoja) (idx amount : Nat) : Hoja :=
  s.take (idx - 1) ++ s.drop (idx - 1 + amount)

/-! ## Schema constants (excel_utils.py lines 12-28) -/

def MAX_FILA_PERMITIDA : Nat := 300
def FILA_ENCABEZADO : Nat := 10
def COL_NRO : Nat := 1
def COL_RADICADO : Nat := 2
def COL_TIPO : Nat := 3
def COL_FECHA : Nat := 4
def COL_HORA : Nat := 5
def COL_JUZGADO : Nat := 6
def COL_REALIZADO_SI : Nat := 7
def COL_REALIZADO_NO : Nat := 8
/-- Source constant COL MOTIVOS INICIO (column I), renamed here. -/
def COL_MOTIVOS_INICIAL : Nat := 9
def COL_MOTIVOS_FIN : Nat := 16
def COL_OBSERVACIONES : Nat := 17

/-! ## guardar_audiencias_excel (excel_utils.py lines 148-323) -/

/-- The writes of one data row (lines 199-231, value writes only; the
style copying of copiar_estilos_fila recreates each cell with its
current value, so values are untouched).  The source clears columns G
and H and then marks exactly one of them; it writes each reason cell
twice with the same value, here once. -/
def escribirFila (s : Hoja) (fila idx : Nat) (d : Audiencia) : Hoja :=
  let s := setCell s fila COL_NRO (Nat.repr idx)
  let s := setCell s fila COL_RADICADO d.radicado
  let s := setCell s fila COL_TIPO d.tipo_audiencia
  let s := setCell s fila COL_FECHA d.fecha
  let s := setCell s fila COL_HORA d.hora
  let s := setCell s fila COL_JUZGADO d.juzgado
  let s := setCell s fila COL_REALIZADO_SI ""
  let s := setCell s fila COL_REALIZADO_NO ""
  let s := if d.se_realizo = "SI" then setCell s fila COL_REALIZADO_SI "X"
           else if d.se_realizo = "NO" then setCell s fila COL_REALIZADO_NO "X"
           else s
  let s := setCell s fila COL_OBSERVACIONES d.observaciones
  (List.range 8).foldl
    (fun t i => setCell t fila (COL_MOTIVOS_INICIAL + i) (d.motivos.getD i "")) s

/-- The enumerate(datos_ordenados, start=1) write loop. -/
def escribirDatosDesde (idx : Nat) (s : Hoja) : List Audiencia → Hoja
  | [] => s
  | d :: ds => escribirDatosDesde (idx + 1) (escribirFila s (FILA_ENCABEZADO + idx) idx d) ds

/-- The scan for stale totals rows (lines 236-245): walk down from the
row after the data while column G or H is truthy, collecting rows whose
G or H text starts with "TOTAL DE", stopping at the first row that has
content but no such prefix.  Fueled; cells beyond the sheet are empty so
the loop always stops within the sheet. -/
def filasTotalesViejas (s : Hoja) (fila : Nat) : Nat → List Nat
  | 0 => []
  | fuel + 1 =>
    if getCell s fila COL_REALIZADO_SI ≠ "" ∨ getCell s fila COL_REALIZADO_NO ≠ "" then
      if pyStartsWith "TOTAL DE" (getCell s fila COL_REALIZADO_SI) ||
         pyStartsWith "TOTAL DE" (getCell s fila COL_REALIZADO_NO) then
        fila :: filasTotalesViejas s (fila + 1) fuel
      else []
    else []

/-- The fixed reason category labels (lines 288-297), positionally. -/
def nombresMotivos : List String :=
  ["Juez", "Fiscalía", "Usuario", "Inpec", "Víctima", "ICBF",
   "Defensor Confianza", "Defensor Público"]

/-- The per-reason count for one reason column (lines 299-308): rows
strictly between the header and the totals row whose column H reads
exactly "X" and whose reason cell is truthy. -/
def conteoMotivo (s : Hoja) (filaTotales col : Nat) : Nat :=
  (List.range' (FILA_ENCABEZADO + 1) (filaTotales - (FILA_ENCABEZADO + 1))).countP
    (fun fila => getCell s fila COL_REALIZADO_NO == "X" && getCell s fila col != "")

/-- The per-reason totals row write loop (lines 310-319). -/
def escribeTotalesMotivos (s : Hoja) (filaTotales filaTotalesMotivos : Nat) : Hoja :=
  (List.range 8).foldl
    (fun t i =>
      setCell t filaTotalesMotivos (COL_MOTIVOS_INICIAL + i)
        (nombresMotivos.getD i "" ++ ": " ++ Nat.repr (conteoMotivo s filaTotales (COL_MOTIVOS_INICIAL + i))))
    s

/-- Model of guardar_audiencias_excel (lines 148-323) on the loaded
sheet.  File-system concerns (the archivos/ path, the template guard,
the existence check) sit outside the sheet transformation; an error
result models a raised exception, in which case wb.save never runs and
the stored file keeps its previous contents. -/
def guardarAudienciasExcel (datos : List Audiencia) (s : Hoja) : Except String Hoja :=
  -- limpiar_celdas_combinadas only unmerges; no cell value changes.
  let maxRow := min s.length (MAX_FILA_PERMITIDA - 1)
  let s1 :=
    if FILA_ENCABEZADO < maxRow then borraFilas s (FILA_ENCABEZADO + 1) (maxRow - FILA_ENCABEZADO)
    else s
  match listaValidada datos with
  | .error e => .error e
  | .ok datosValidados =>
    let datosOrdenados := ordenaDesc datosValidados
    let s2 := escribirDatosDesde 1 s1 datosOrdenados
    let finDatos := FILA_ENCABEZADO + datosOrdenados.length
    let viejas := filasTotalesViejas s2 (finDatos + 1) (s2.length + 1)
    let s3 := viejas.reverse.foldl (fun t f => borraFilas t f 1) s2
    let totalSi := datosOrdenados.countP (fun d => d.se_realizo == "SI")
    let totalNo := datosOrdenados.countP (fun d => d.se_realizo == "NO")
    let filaTotales := finDatos + 1
    if MAX_FILA_PERMITIDA < filaTotales then
      .error "Demasiadas audiencias: podrías sobrescribir la firma del defensor."
    else
      let s4 := setCell s3 filaTotales COL_REALIZADO_SI
        ("TOTAL DE AUDIENCIAS REALIZADAS: " ++ Nat.repr totalSi)
      let s5 := setCell s4 filaTotales COL_REALIZADO_NO
        ("TOTAL DE AUDIENCIAS NO REALIZADAS: " ++ Nat.repr totalNo)
      let filaTotalesMotivos := filaTotales + 1
      if MAX_FILA_PERMITIDA ≤ filaTotalesMotivos then
        .error ("No hay espacio suficiente para escribir los totales de motivos " ++
          "sin sobrescribir la firma del defensor.")
      else
        .ok (escribeTotalesMotivos s5 filaTotales filaTotalesMotivos)

/-- What the stored file holds after an operation: the saved sheet on
success, the untouched previous contents when an exception was raised
before wb.save. -/
def persistido (s : Hoja) : Except String Hoja → Hoja
  | .ok t => t
  | .error _ => s

/-- Whether an operation returned normally. -/
def esOk {α : Type} : Except String α → Bool
  | .ok _ => true
  | .error _ => false

/-! ## The read-all loop and guardar_una_audiencia_excel (lines 325-387) -/

/-- One reconstructed record from a data row (lines 347-368). -/
def registroDeFila (s : Hoja) (fila : Nat) : Audiencia :=
  let vSi := getCell s fila COL_REALIZADO_SI
  let vNo := getCell s fila COL_REALIZADO_NO
  { radicado := getCell s fila COL_RADICADO
    tipo_audiencia := getCell s fila COL_TIPO
    fecha := getCell s fila COL_FECHA
    hora := getCell s fila COL_HORA
    juzgado := getCell s fila COL_JUZGADO
    se_realizo :=
      if vSi ≠ "" ∧ pyStrip vSi = "X" then "SI"
      else if vNo ≠ "" ∧ pyStrip vNo = "X" then "NO"
      else ""
    motivos := (List.range 8).map (fun i => getCell s fila (COL_MOTIVOS_INICIAL + i))
    observaciones := getCell s fila COL_OBSERVACIONES }

/-- The scan of existing records (lines 344-370), the spec's read-all:
walk down from the row under the header while the radicado column is
truthy.  Fueled; cells beyond the sheet are empty so the loop always
stops within the sheet. -/
def leerDesde (s : Hoja) (fila : Nat) : Nat → List Audiencia
  | 0 => []
  | fuel + 1 =>
    if getCell s fila COL_RADICADO ≠ "" then
      registroDeFila s fila :: leerDesde s (fila + 1) fuel
    else []

/-- read-all over the whole sheet. -/
def leerAudiencias (s : Hoja) : List Audiencia :=
  leerDesde s (FILA_ENCABEZADO + 1) (s.length + 1)

/-- Model of guardar_una_audiencia_excel (lines 325-387), the spec's
append-one: read the existing records, reject a duplicate stripped
radicado, otherwise delegate to guardar_audiencias_excel on the existing
records plus the new one and report the new record count. -/
def guardarUnaAudienciaExcel (d : Audiencia) (s : Hoja) : Except String (Hoja × Nat) :=
  let existentes := leerAudiencias s
  let nuevoRadicado := pyStrip d.radicado
  if existentes.any (fun a => pyStrip a.radicado == nuevoRadicado) then
    .error ("Ya existe una audiencia con el radicado \x27" ++ nuevoRadicado ++ "\x27.")
  else
    match guardarAudienciasExcel (existentes ++ [d]) s with
    | .error e => .error e
    | .ok t => .ok (t, (existentes ++ [d]).length)

/-- The stored file after append-one. -/
def persistidoUna (s : Hoja) : Except String (Hoja × Nat) → Hoja
  | .ok (t, _) => t
  | .error _ => s

/-! ## exportar_con_firma (excel_utils.py lines 403-487) -/

/-- The first scan of exportar_con_firma (lines 434-436): from the
header row, advance past rows whose radicado column is truthy. -/
def avanzaDatos (s : Hoja) (u : Nat) : Nat → Nat
  | 0 => u
  | fuel + 1 =>
    if getCell s (u + 1) COL_RADICADO ≠ "" then avanzaDatos s (u + 1) fuel else u

/-- The second scan (lines 439-441): advance past rows where either
marker column G or H is truthy. -/
def avanzaTotales (s : Hoja) (u : Nat) : Nat → Nat
  | 0 => u
  | fuel + 1 =>
    if getCell s (u + 1) COL_REALIZADO_SI ≠ "" ∨ getCell s (u + 1) COL_REALIZADO_NO ≠ "" then
      avanzaTotales s (u + 1) fuel
    else u

/-- The signature row the export stage computes: the first row after the
contiguous data rows and the contiguous marker rows. -/
def filaFirma (s : Hoja) : Nat :=
  avanzaTotales s (avanzaDatos s FILA_ENCABEZADO (s.length + 1)) (s.length + 1) + 1

/-- The signature label (line 462). -/
def textoFirma : String :=
  "Firma del defensor público:__________________________"

/-- Sheet transformation of exportar_con_firma on the copy: write the
label into column A of the signature row, then merge A..Q of that row;
openpyxl's merge_cells removes every cell of the range except the
top-left one, so columns B..Q of the row lose their values.  Border and
alignment styling carries no values. -/
def exportarConFirmaHoja (s : Hoja) : Hoja :=
  let ff := filaFirma s
  let s1 := setCell s ff 1 textoFirma
  (List.range' 2 16).foldl (fun t c => setCell t ff c "") s1

/-- Model of Path(nombre).stem for a name ending in ".xlsx": the name
without its last five characters. -/
def stemXlsx (n : String) : String :=
  ⟨n.data.take (n.data.length - 5)⟩

/-- The ".xlsx" suffix normalization used by exportar_con_firma
(lines 409-410). -/
def aseguraXlsx (n : String) : String :=
  if pyEndsWith ".xlsx" n then n else n ++ ".xlsx"

/-- The name of the exported copy (lines 416-419): derived from the
source name's stem and the current calendar date only. -/
def nombreExportado (nombre hoy : String) : String :=
  stemXlsx (aseguraXlsx nombre) ++ "_exportado_" ++ hoy ++ ".xlsx"

/-- The archivos/ directory as a map from path to sheet contents. -/
abbrev Almacen := String → Option Hoja

/-- os.path.join(ARCHIVOS_DIR, n). -/
def rutaEn (n : String) : String := "archivos/" ++ n

/-- Model of exportar_con_firma (lines 403-487) over the file store:
fails when the source path is absent; otherwise copies the source to
the dated destination name (shutil.copy2 overwrites an existing
destination without any check), signs the copy, saves it at that same
destination, and returns the destination path.  The source entry is
never written. -/
def exportarConFirma (store : Almacen) (nombre hoy : String) :
    Except String (Almacen × String) :=
  let n := aseguraXlsx nombre
  let rutaOrigen := rutaEn n
  match store rutaOrigen with
  | none => .error ("No se encontró el archivo " ++ rutaOrigen)
  | some s =>
    let rutaDestino := rutaEn (nombreExportado nombre hoy)
    let firmado := exportarConFirmaHoja s
    .ok (fun k => if k = rutaDestino then some firmado else store k, rutaDestino)

/-! ## Cell-level lemmas for the sheet model -/

theorem getD_set_eq {α : Type} (l : List α) (i : Nat) (a d : α) (h : i < l.length) :
    (l.set i a).getD i d = a := by
  induction l generalizing i with
  | nil => simp at h
  | cons x xs ih =>
    cases i with
    | zero => rfl
    | succ j => exact ih j (Nat.lt_of_succ_lt_succ h)

theorem getD_set_ne {α : Type} (l : List α) (i j : Nat) (a d : α) (h : i ≠ j) :
    (l.set i a).getD j d = l.getD j d := by
  induction l generalizing i j with
  | nil => rfl
  | cons x xs ih =>
    cases i with
    | zero => cases j with
      | zero => exact absurd rfl h
      | succ => rfl
    | succ i' =>
      cases j with
      | zero => rfl
      | succ j' => exact ih i' j' (fun hc => h (by rw [hc]))

theorem length_rellenaHasta (s : Hoja) (n : Nat) :
    (rellenaHasta s n).length = max s.length n := by
  simp [rellenaHasta]
  omega

theorem getCell_rellenaHasta (s : Hoja) (n r c : Nat) :
    getCell (rellenaHasta s n) r c = getCell s r c := by
  unfold getCell rellenaHasta
  rcases Nat.lt_or_ge (r - 1) s.length with h | h
  · rw [List.getD_append _ _ _ _ h]
  · rw [List.getD_append_right _ _ _ _ h, List.getD_eq_default _ _ h]
    have : (List.replicate (n - s.length) filaVacia).getD (r - 1 - s.length) filaVacia
        = filaVacia := by
      rcases Nat.lt_or_ge (r - 1 - s.length) (n - s.length) with h2 | h2
      · rw [List.getD_eq_getElem _ _ (by simpa using h2), List.getElem_replicate]
      · exact List.getD_eq_default _ _ (by simpa using h2)
    rw [this]

theorem length_setCell (s : Hoja) (r c : Nat) (v : String) :
    (setCell s r c v).length = max s.length r := by
  simp [setCell, length_rellenaHasta]

theorem getCell_setCell {s : Hoja} {r c : Nat} {v : String} {r' c' : Nat}
    (hr : 1 ≤ r) (hr' : 1 ≤ r') :
    getCell (setCell s r c v) r' c' = if r' = r ∧ c' = c then v else getCell s r' c' := by
  by_cases hrr : r' = r
  · subst hrr
    by_cases hcc : c' = c
    · subst hcc
      rw [if_pos (And.intro rfl rfl)]
      show ((rellenaHasta s r').set (r' - 1) _).getD (r' - 1) filaVacia c' = v
      rw [getD_set_eq _ _ _ _ (by rw [length_rellenaHasta]; omega)]
      simp [Fila.pon]
    · rw [if_neg (fun h => hcc h.2)]
      show ((rellenaHasta s r').set (r' - 1) _).getD (r' - 1) filaVacia c' = getCell s r' c'
      rw [getD_set_eq _ _ _ _ (by rw [length_rellenaHasta]; omega)]
      show ((rellenaHasta s r').getD (r' - 1) filaVacia).pon c v c' = getCell s r' c'
      unfold Fila.pon
      rw [if_neg hcc]
      exact getCell_rellenaHasta s r' r' c'
  · rw [if_neg (fun h => hrr h.1)]
    show ((rellenaHasta s r).set (r - 1) _).getD (r' - 1) filaVacia c' = getCell s r' c'
    rw [getD_set_ne _ _ _ _ _ (by omega)]
    exact getCell_rellenaHasta s r r' c'

theorem getCell_mas_alla {s : Hoja} {r : Nat} (h : s.length < r) (c : Nat) :
    getCell s r c = "" := by
  unfold getCell
  rw [List.getD_eq_default _ _ (by omega)]
  rfl

theorem fila_de_celda_no_vacia {s : Hoja} {r c : Nat} (h : getCell s r c ≠ "") :
    r ≤ s.length := by
  by_contra hb
  exact h (getCell_mas_alla (by omega) c)

/-- The record field each data column receives in the write loop of
guardar_audiencias_excel (lines 199-231), as a function of the column. -/
def campoCelda (idx : Nat) (d : Audiencia) (c : Nat) : String :=
  if c = 1 then Nat.repr idx
  else if c = 2 then d.radicado
  else if c = 3 then d.tipo_audiencia
  else if c = 4 then d.fecha
  else if c = 5 then d.hora
  else if c = 6 then d.juzgado
  else if c = 7 then (if d.se_realizo = "SI" then "X" else "")
  else if c = 8 then (if d.se_realizo = "NO" then "X" else "")
  else if c = 17 then d.observaciones
  else if 9 ≤ c ∧ c ≤ 16 then d.motivos.getD (c - 9) ""
  else ""

set_option maxHeartbeats 2000000 in
theorem getCell_escribirFila (s : Hoja) (fila idx : Nat) (d : Audiencia) (r c : Nat)
    (hf : 1 ≤ fila) (hr : 1 ≤ r) :
    getCell (escribirFila s fila idx d) r c =
      if r = fila ∧ 1 ≤ c ∧ c ≤ 17 then campoCelda idx d c else getCell s r c := by
  have hrange : List.range 8 = [0, 1, 2, 3, 4, 5, 6, 7] := rfl
  simp only [escribirFila, hrange, List.foldl_cons, List.foldl_nil, COL_NRO, COL_RADICADO,
    COL_TIPO, COL_FECHA, COL_HORA, COL_JUZGADO, COL_REALIZADO_SI, COL_REALIZADO_NO,
    COL_MOTIVOS_INICIAL, COL_OBSERVACIONES]
  by_cases hrf : r = fila
  · subst hrf
    rcases Nat.lt_or_ge c 18 with hc | hc
    · by_cases hsi : d.se_realizo = "SI"
      · rw [if_pos hsi]
        interval_cases c <;> simp [getCell_setCell hf hr, campoCelda, hsi]
      · by_cases hno : d.se_realizo = "NO"
        · rw [if_neg hsi, if_pos hno]
          interval_cases c <;> simp [getCell_setCell hf hr, campoCelda, hsi, hno]
        · rw [if_neg hsi, if_neg hno]
          interval_cases c <;> simp [getCell_setCell hf hr, campoCelda, hsi, hno]
    · have salta : ∀ (t : Hoja) (k : Nat) (v : String), k ≤ 17 →
          getCell (setCell t r k v) r c = getCell t r c := by
        intro t k v hk
        rw [getCell_setCell hf hr,
          if_neg (show ¬ (r = r ∧ c = k) from fun h => absurd h.2 (by omega))]
      rw [if_neg (show ¬ (r = r ∧ 1 ≤ c ∧ c ≤ 17) by omega)]
      simp [apply_ite (fun t : Hoja => getCell t r c), salta]
  · have salta : ∀ (t : Hoja) (k : Nat) (v : String),
        getCell (setCell t fila k v) r c = getCell t r c := by
      intro t k v
      rw [getCell_setCell hf hr,
        if_neg (show ¬ (r = fila ∧ c = k) from fun h => hrf h.1)]
    rw [if_neg (show ¬ (r = fila ∧ 1 ≤ c ∧ c ≤ 17) from fun h => hrf h.1)]
    simp [apply_ite (fun t : Hoja => getCell t r c), salta]

/-- The default record used with getD when characterizing written rows
(only reached outside the data region). -/
def audienciaVacia : Audiencia :=
  { radicado := "", tipo_audiencia := "", fecha := "", hora := "", juzgado := "",
    se_realizo := "", motivos := [], observaciones := "" }

theorem getCell_escribirDatosDesde (ds : List Audiencia) (idx : Nat) (s : Hoja) (r c : Nat)
    (hidx : 1 ≤ idx) (hr : 1 ≤ r) :
    getCell (escribirDatosDesde idx s ds) r c =
      if FILA_ENCABEZADO + idx ≤ r ∧ r < FILA_ENCABEZADO + idx + ds.length ∧ 1 ≤ c ∧ c ≤ 17
      then campoCelda (r - FILA_ENCABEZADO) (ds.getD (r - FILA_ENCABEZADO - idx) audienciaVacia) c
      else getCell s r c := by
  simp only [FILA_ENCABEZADO]
  induction ds generalizing idx s with
  | nil =>
    simp only [escribirDatosDesde, List.length_nil]
    rw [if_neg (by omega)]
  | cons d ds ih =>
    simp only [escribirDatosDesde, FILA_ENCABEZADO, List.length_cons]
    rw [ih (idx + 1) _ (by omega)]
    rw [getCell_escribirFila _ _ _ _ _ _ (by omega) hr]
    by_cases hfila : r = 10 + idx
    · subst hfila
      rw [if_neg (show ¬ (10 + (idx + 1) ≤ 10 + idx ∧
        10 + idx < 10 + (idx + 1) + ds.length ∧ 1 ≤ c ∧ c ≤ 17) by omega)]
      by_cases hc : 1 ≤ c ∧ c ≤ 17
      · rw [if_pos (show 10 + idx = 10 + idx ∧ 1 ≤ c ∧ c ≤ 17 from ⟨rfl, hc.1, hc.2⟩)]
        rw [if_pos (show 10 + idx ≤ 10 + idx ∧ 10 + idx < 10 + idx + (ds.length + 1) ∧
          1 ≤ c ∧ c ≤ 17 from ⟨Nat.le_refl _, by omega, hc.1, hc.2⟩)]
        have h1 : 10 + idx - 10 = idx := by omega
        rw [h1, Nat.sub_self]
        rfl
      · rw [if_neg (show ¬ (10 + idx = 10 + idx ∧ 1 ≤ c ∧ c ≤ 17) from
            fun h => hc ⟨h.2.1, h.2.2⟩),
          if_neg (show ¬ (10 + idx ≤ 10 + idx ∧ 10 + idx < 10 + idx + (ds.length + 1) ∧
            1 ≤ c ∧ c ≤ 17) from fun h => hc ⟨h.2.2.1, h.2.2.2⟩)]
    · rw [if_neg (show ¬ (r = 10 + idx ∧ 1 ≤ c ∧ c ≤ 17) from fun h => hfila h.1)]
      by_cases hin : 10 + (idx + 1) ≤ r ∧ r < 10 + (idx + 1) + ds.length ∧ 1 ≤ c ∧ c ≤ 17
      · rw [if_pos hin,
          if_pos (show 10 + idx ≤ r ∧ r < 10 + idx + (ds.length + 1) ∧ 1 ≤ c ∧ c ≤ 17 from
            ⟨by omega, by omega, hin.2.2.1, hin.2.2.2⟩)]
        have h3 : r - 10 - idx = (r - 10 - (idx + 1)) + 1 := by omega
        rw [h3, List.getD_cons_succ]
      · rw [if_neg hin,
          if_neg (show ¬ (10 + idx ≤ r ∧ r < 10 + idx + (ds.length + 1) ∧ 1 ≤ c ∧ c ≤ 17)
            by omega)]

/-! ## Properties of the stable descending sort -/

theorem insertaDesc_perm (x : Audiencia) (l : List Audiencia) :
    (insertaDesc x l).Perm (x :: l) := by
  induction l with
  | nil => exact List.Perm.refl _
  | cons y ys ih =>
    simp only [insertaDesc]
    by_cases h : claveDe x < claveDe y
    · rw [if_pos h]
      exact ((ih.cons y).trans (List.Perm.swap x y ys))
    · rw [if_neg h]

theorem ordenaDesc_perm (l : List Audiencia) : (ordenaDesc l).Perm l := by
  induction l with
  | nil => exact List.Perm.refl _
  | cons x xs ih =>
    exact (insertaDesc_perm x (ordenaDesc xs)).trans (ih.cons x)

theorem length_ordenaDesc (l : List Audiencia) : (ordenaDesc l).length = l.length :=
  (ordenaDesc_perm l).length_eq

theorem mem_insertaDesc {a x : Audiencia} {l : List Audiencia}
    (h : a ∈ insertaDesc x l) : a = x ∨ a ∈ l := by
  have := (insertaDesc_perm x l).mem_iff.mp h
  simpa using this

theorem insertaDesc_pairwise {x : Audiencia} {l : List Audiencia}
    (h : l.Pairwise (fun a b => claveDe b ≤ claveDe a)) :
    (insertaDesc x l).Pairwise (fun a b => claveDe b ≤ claveDe a) := by
  induction l with
  | nil => simp [insertaDesc]
  | cons y ys ih =>
    rcases List.pairwise_cons.mp h with ⟨hy, hys⟩
    simp only [insertaDesc]
    by_cases hlt : claveDe x < claveDe y
    · rw [if_pos hlt]
      refine List.pairwise_cons.mpr ⟨?_, ih hys⟩
      intro a ha
      rcases mem_insertaDesc ha with rfl | ha
      · exact Nat.le_of_lt hlt
      · exact hy a ha
    · rw [if_neg hlt]
      refine List.pairwise_cons.mpr ⟨?_, h⟩
      intro a ha
      rcases List.mem_cons.mp ha with rfl | ha
      · exact Nat.le_of_not_lt hlt
      · exact Nat.le_trans (hy a ha) (Nat.le_of_not_lt hlt)

theorem ordenaDesc_pairwise (l : List Audiencia) :
    (ordenaDesc l).Pairwise (fun a b => claveDe b ≤ claveDe a) := by
  induction l with
  | nil => simp [ordenaDesc]
  | cons x xs ih => exact insertaDesc_pairwise ih

theorem insertaDesc_filter_clave (x : Audiencia) (l : List Audiencia) (k : Nat) :
    (insertaDesc x l).filter (fun d => claveDe d == k) =
      (x :: l).filter (fun d => claveDe d == k) := by
  induction l with
  | nil => rfl
  | cons y ys ih =>
    simp only [insertaDesc]
    by_cases hlt : claveDe x < claveDe y
    · rw [if_pos hlt]
      by_cases hx : claveDe x = k
      · have hy : (claveDe y == k) = false := by
          simp only [beq_eq_false_iff_ne]
          omega
        simp only [List.filter_cons, hy, ih, List.filter_cons]
        simp [hx]
      · have hx2 : (claveDe x == k) = false := by simp [hx]
        simp [List.filter_cons, ih, hx2]
    · rw [if_neg hlt]

theorem ordenaDesc_filter_clave (l : List Audiencia) (k : Nat) :
    (ordenaDesc l).filter (fun d => claveDe d == k) =
      l.filter (fun d => claveDe d == k) := by
  induction l with
  | nil => rfl
  | cons x xs ih =>
    rw [show ordenaDesc (x :: xs) = insertaDesc x (ordenaDesc xs) from rfl,
      insertaDesc_filter_clave]
    simp only [List.filter_cons, ih]

/-! ## Facts extracted from a successful validation -/

theorem validar_ok_campos {d : Audiencia} (h : validarCamposAudiencia d = .ok d) :
    d.radicado ≠ "" ∧ (d.se_realizo = "SI" ∨ d.se_realizo = "NO") := by
  simp only [validarCamposAudiencia] at h
  split_ifs at h with h1 h2 h3 h4 h5 h6 h7 h8
  refine ⟨h1, ?_⟩
  injection h with h9
  have hse := congrArg Audiencia.se_realizo h9
  simp only at hse
  rw [← hse]
  exact h8

theorem checar_ok_partes {d : Audiencia} (h : checarAudiencia d = .ok d) :
    validarCamposAudiencia d = .ok d ∧ ∃ t, parseFechaHora d.fecha d.hora = .ok t := by
  unfold checarAudiencia at h
  rcases hv : validarCamposAudiencia d with e | dv
  · rw [hv] at h
    simp at h
  · rw [hv] at h
    simp only at h
    rcases hp : parseFechaHora dv.fecha dv.hora with e | t
    · rw [hp] at h
      simp at h
    · rw [hp] at h
      simp only [Except.ok.injEq] at h
      subst h
      exact ⟨rfl, t, hp⟩

theorem listaValidada_fija {datos : List Audiencia}
    (h : ∀ d ∈ datos, checarAudiencia d = .ok d) : listaValidada datos = .ok datos := by
  induction datos with
  | nil => rfl
  | cons d ds ih =>
    simp only [listaValidada]
    rw [h d (by simp), ih (fun a ha => h a (by simp [ha]))]

theorem listaValidada_falla {datos : List Audiencia}
    (h : ∃ d ∈ datos, ∃ e, checarAudiencia d = .error e) :
    ∃ e, listaValidada datos = .error e := by
  induction datos with
  | nil => simp at h
  | cons d ds ih =>
    simp only [listaValidada]
    rcases hc : checarAudiencia d with e | dv
    · exact ⟨e, rfl⟩
    · rcases h with ⟨a, ha, e, he⟩
      rcases List.mem_cons.mp ha with rfl | ha
      · rw [hc] at he
        exact absurd he (by simp)
      · rcases ih ⟨a, ha, e, he⟩ with ⟨e2, he2⟩
        rw [he2]
        exact ⟨e2, rfl⟩

/-! ## The sheet guardar_audiencias_excel produces -/

theorem clear_eq_take {s : Hoja} (hL : s.length ≤ MAX_FILA_PERMITIDA - 1) :
    (if FILA_ENCABEZADO < min s.length (MAX_FILA_PERMITIDA - 1)
     then borraFilas s (FILA_ENCABEZADO + 1) (min s.length (MAX_FILA_PERMITIDA - 1) - FILA_ENCABEZADO)
     else s) = s.take FILA_ENCABEZADO := by
  have hmin : min s.length (MAX_FILA_PERMITIDA - 1) = s.length := by
    simp only [MAX_FILA_PERMITIDA] at hL ⊢
    omega
  rw [hmin]
  by_cases hlen : FILA_ENCABEZADO < s.length
  · rw [if_pos hlen]
    unfold borraFilas
    have h1 : FILA_ENCABEZADO + 1 - 1 = FILA_ENCABEZADO := by omega
    rw [h1]
    have h2 : FILA_ENCABEZADO + (s.length - FILA_ENCABEZADO) = s.length := by omega
    rw [h2, List.drop_length, List.append_nil]
  · rw [if_neg hlen]
    exact (List.take_of_length_le (by omega)).symm

theorem getCell_take_bajo {s : Hoja} {r : Nat} (h : FILA_ENCABEZADO < r) (c : Nat) :
    getCell (s.take FILA_ENCABEZADO) r c = "" := by
  apply getCell_mas_alla
  have := List.length_take_le FILA_ENCABEZADO s
  simp only [FILA_ENCABEZADO] at this h ⊢
  omega

theorem filasTotalesViejas_vacia {s : Hoja} {fila : Nat}
    (h7 : getCell s fila COL_REALIZADO_SI = "")
    (h8 : getCell s fila COL_REALIZADO_NO = "") (fuel : Nat) :
    filasTotalesViejas s fila fuel = [] := by
  cases fuel with
  | zero => rfl
  | succ n => simp [filasTotalesViejas, h7, h8]

theorem getCell_escribeTotalesMotivos (s : Hoja) (fT fTM r c : Nat)
    (hfTM : 1 ≤ fTM) (hr : 1 ≤ r) :
    getCell (escribeTotalesMotivos s fT fTM) r c =
      if r = fTM ∧ 9 ≤ c ∧ c ≤ 16
      then nombresMotivos.getD (c - 9) "" ++ ": " ++ Nat.repr (conteoMotivo s fT c)
      else getCell s r c := by
  have hrange : List.range 8 = [0, 1, 2, 3, 4, 5, 6, 7] := rfl
  simp only [escribeTotalesMotivos, hrange, List.foldl_cons, List.foldl_nil,
    COL_MOTIVOS_INICIAL]
  by_cases hrf : r = fTM
  · subst hrf
    rcases Nat.lt_or_ge c 18 with hc | hc
    · interval_cases c <;> simp [getCell_setCell hfTM hr]
    · have salta : ∀ (t : Hoja) (k : Nat) (v : String), k ≤ 17 →
          getCell (setCell t r k v) r c = getCell t r c := by
        intro t k v hk
        rw [getCell_setCell hfTM hr,
          if_neg (show ¬ (r = r ∧ c = k) from fun h => absurd h.2 (by omega))]
      rw [if_neg (show ¬ (r = r ∧ 9 ≤ c ∧ c ≤ 16) by omega)]
      simp [salta]
  · have salta : ∀ (t : Hoja) (k : Nat) (v : String),
        getCell (setCell t fTM k v) r c = getCell t r c := by
      intro t k v
      rw [getCell_setCell hfTM hr,
        if_neg (show ¬ (r = fTM ∧ c = k) from fun h => hrf h.1)]
    rw [if_neg (show ¬ (r = fTM ∧ 9 ≤ c ∧ c ≤ 16) from fun h => hrf h.1)]
    simp only [salta]

/-- The sheet a successful guardar_audiencias_excel writes, in closed
form: the ten header rows survive, the sorted data rows follow, then the
totals row and the per-reason totals row. -/
def hojaFinal (datos : List Audiencia) (s : Hoja) : Hoja :=
  let datosOrdenados := ordenaDesc datos
  let s2 := escribirDatosDesde 1 (s.take FILA_ENCABEZADO) datosOrdenados
  let filaTotales := FILA_ENCABEZADO + datosOrdenados.length + 1
  let s4 := setCell s2 filaTotales COL_REALIZADO_SI
    ("TOTAL DE AUDIENCIAS REALIZADAS: " ++
      Nat.repr (datosOrdenados.countP (fun d => d.se_realizo == "SI")))
  let s5 := setCell s4 filaTotales COL_REALIZADO_NO
    ("TOTAL DE AUDIENCIAS NO REALIZADAS: " ++
      Nat.repr (datosOrdenados.countP (fun d => d.se_realizo == "NO")))
  escribeTotalesMotivos s5 filaTotales (filaTotales + 1)

theorem guardar_eq_hojaFinal (datos : List Audiencia) (s : Hoja)
    (hL : s.length ≤ MAX_FILA_PERMITIDA - 1)
    (hv : listaValidada datos = .ok datos)
    (hn : datos.length ≤ 287) :
    guardarAudienciasExcel datos s = .ok (hojaFinal datos s) := by
  have h7 : getCell (escribirDatosDesde 1 (s.take FILA_ENCABEZADO) (ordenaDesc datos))
      (FILA_ENCABEZADO + datos.length + 1) COL_REALIZADO_SI = "" := by
    rw [getCell_escribirDatosDesde _ _ _ _ _ (Nat.le_refl 1)
      (by simp only [FILA_ENCABEZADO]; omega)]
    rw [if_neg (by simp only [FILA_ENCABEZADO, length_ordenaDesc]; omega)]
    exact getCell_take_bajo (by simp only [FILA_ENCABEZADO]; omega) _
  have h8 : getCell (escribirDatosDesde 1 (s.take FILA_ENCABEZADO) (ordenaDesc datos))
      (FILA_ENCABEZADO + datos.length + 1) COL_REALIZADO_NO = "" := by
    rw [getCell_escribirDatosDesde _ _ _ _ _ (Nat.le_refl 1)
      (by simp only [FILA_ENCABEZADO]; omega)]
    rw [if_neg (by simp only [FILA_ENCABEZADO, length_ordenaDesc]; omega)]
    exact getCell_take_bajo (by simp only [FILA_ENCABEZADO]; omega) _
  simp only [guardarAudienciasExcel, clear_eq_take hL, hv, length_ordenaDesc]
  rw [filasTotalesViejas_vacia h7 h8]
  simp only [List.reverse_nil, List.foldl_nil]
  rw [if_neg (by simp only [MAX_FILA_PERMITIDA, FILA_ENCABEZADO]; omega)]
  rw [if_neg (by simp only [MAX_FILA_PERMITIDA, FILA_ENCABEZADO]; omega)]
  simp only [hojaFinal, length_ordenaDesc]

/-- What read-all reconstructs from a written record: the record with
its reasons list padded (or truncated) to exactly the eight positional
slots; every other field returns verbatim. -/
def rellena8 (d : Audiencia) : Audiencia :=
  { d with motivos := (List.range 8).map (fun i => d.motivos.getD i "") }

theorem campoCelda_c2 (idx : Nat) (d : Audiencia) : campoCelda idx d 2 = d.radicado := rfl
theorem campoCelda_c3 (idx : Nat) (d : Audiencia) : campoCelda idx d 3 = d.tipo_audiencia := rfl
theorem campoCelda_c4 (idx : Nat) (d : Audiencia) : campoCelda idx d 4 = d.fecha := rfl
theorem campoCelda_c5 (idx : Nat) (d : Audiencia) : campoCelda idx d 5 = d.hora := rfl
theorem campoCelda_c6 (idx : Nat) (d : Audiencia) : campoCelda idx d 6 = d.juzgado := rfl
theorem campoCelda_c7 (idx : Nat) (d : Audiencia) :
    campoCelda idx d 7 = (if d.se_realizo = "SI" then "X" else "") := rfl
theorem campoCelda_c8 (idx : Nat) (d : Audiencia) :
    campoCelda idx d 8 = (if d.se_realizo = "NO" then "X" else "") := rfl
theorem campoCelda_c17 (idx : Nat) (d : Audiencia) :
    campoCelda idx d 17 = d.observaciones := rfl
theorem campoCelda_motivo (idx : Nat) (d : Audiencia) (i : Nat) (hi : i < 8) :
    campoCelda idx d (9 + i) = d.motivos.getD i "" := by
  interval_cases i <;> rfl

theorem registroDeFila_escrito (T : Hoja) (fila idx : Nat) (d : Audiencia)
    (hcol : ∀ c, 1 ≤ c → c ≤ 17 → getCell T fila c = campoCelda idx d c)
    (hse : d.se_realizo = "SI" ∨ d.se_realizo = "NO") :
    registroDeFila T fila = rellena8 d := by
  have hrange : List.range 8 = [0, 1, 2, 3, 4, 5, 6, 7] := rfl
  have h2 := hcol 2 (by omega) (by omega)
  have h3 := hcol 3 (by omega) (by omega)
  have h4 := hcol 4 (by omega) (by omega)
  have h5 := hcol 5 (by omega) (by omega)
  have h6 := hcol 6 (by omega) (by omega)
  have h7 := hcol 7 (by omega) (by omega)
  have h8 := hcol 8 (by omega) (by omega)
  have h17 := hcol 17 (by omega) (by omega)
  have hm : ∀ i, i < 8 → getCell T fila (9 + i) = d.motivos.getD i "" := by
    intro i hi
    rw [hcol (9 + i) (by omega) (by omega), campoCelda_motivo _ _ _ hi]
  have hsecampo :
      (if getCell T fila 7 ≠ "" ∧ pyStrip (getCell T fila 7) = "X" then "SI"
       else if getCell T fila 8 ≠ "" ∧ pyStrip (getCell T fila 8) = "X" then "NO"
       else "") = d.se_realizo := by
    rcases hse with hsi | hno
    · simp only [h7, h8, campoCelda_c7, campoCelda_c8, hsi]
      decide
    · simp only [h7, h8, campoCelda_c7, campoCelda_c8, hno]
      decide
  have hmot : ((List.range 8).map fun i => getCell T fila (9 + i)) =
      (List.range 8).map fun i => d.motivos.getD i "" := by
    rw [hrange]
    simp only [List.map_cons, List.map_nil]
    rw [hm 0 (by omega), hm 1 (by omega), hm 2 (by omega), hm 3 (by omega),
      hm 4 (by omega), hm 5 (by omega), hm 6 (by omega), hm 7 (by omega)]
  simp only [registroDeFila, rellena8, COL_RADICADO, COL_TIPO, COL_FECHA, COL_HORA,
    COL_JUZGADO, COL_REALIZADO_SI, COL_REALIZADO_NO, COL_OBSERVACIONES,
    COL_MOTIVOS_INICIAL, h2, h3, h4, h5, h6, h17, campoCelda_c2, campoCelda_c3,
    campoCelda_c4, campoCelda_c5, campoCelda_c6, campoCelda_c17, hsecampo, hmot]

theorem campoCelda_sin_idx (idx idx2 : Nat) (d : Audiencia) (c : Nat) (hc : 2 ≤ c) :
    campoCelda idx d c = campoCelda idx2 d c := by
  unfold campoCelda
  rw [if_neg (show ¬ c = 1 by omega)]
  rw [if_neg (show ¬ c = 1 by omega)]

theorem leerDesde_filas (T : Hoja) (l : List Audiencia) : ∀ (base fuel : Nat),
    11 ≤ base →
    (∀ j, j < l.length → ∀ c, 1 ≤ c → c ≤ 17 →
        getCell T (base + j) c = campoCelda (base + j - 10) (l.getD j audienciaVacia) c) →
    getCell T (base + l.length) COL_RADICADO = "" →
    (∀ d ∈ l, d.radicado ≠ "" ∧ (d.se_realizo = "SI" ∨ d.se_realizo = "NO")) →
    l.length < fuel →
    leerDesde T base fuel = l.map rellena8 := by
  induction l with
  | nil =>
    intro base fuel hbase hcells hfin hval hfuel
    rcases fuel with _ | f
    · omega
    · simp only [leerDesde]
      rw [if_neg (by simpa using hfin)]
      rfl
  | cons d ds ih =>
    intro base fuel hbase hcells hfin hval hfuel
    rcases fuel with _ | f
    · omega
    · simp only [leerDesde]
      have hd0 : getCell T base COL_RADICADO = d.radicado := by
        have := hcells 0 (by simp) 2 (by omega) (by omega)
        simpa [COL_RADICADO, campoCelda_c2] using this
      rw [if_pos (by rw [hd0]; exact (hval d (by simp)).1)]
      have hreg : registroDeFila T base = rellena8 d := by
        apply registroDeFila_escrito T base (base - 10) d
        · intro c hc1 hc17
          have := hcells 0 (by simp) c hc1 hc17
          simpa using this
        · exact (hval d (by simp)).2
      rw [hreg]
      have hcola : leerDesde T (base + 1) f = ds.map rellena8 := by
        apply ih (base + 1) f (by omega)
        · intro j hj c hc1 hc17
          have := hcells (j + 1) (by simp; omega) c hc1 hc17
          have harr : base + (j + 1) = base + 1 + j := by omega
          rw [harr] at this
          simpa [List.getD_cons_succ] using this
        · have := hfin
          have harr : base + (d :: ds).length = base + 1 + ds.length := by
            simp
            omega
          rwa [harr] at this
        · intro a ha
          exact hval a (by simp [ha])
        · simp at hfuel
          omega
      rw [hcola]
      rfl

theorem getCell_hojaFinal_dato (datos : List Audiencia) (s : Hoja) (j c : Nat)
    (hj : j < datos.length) (hc1 : 1 ≤ c) (hc17 : c ≤ 17) :
    getCell (hojaFinal datos s) (11 + j) c =
      campoCelda (j + 1) ((ordenaDesc datos).getD j audienciaVacia) c := by
  simp only [hojaFinal, length_ordenaDesc]
  rw [getCell_escribeTotalesMotivos _ _ _ _ _ (by omega) (by omega)]
  rw [if_neg (by simp only [FILA_ENCABEZADO]; omega)]
  rw [getCell_setCell (by simp only [FILA_ENCABEZADO]; omega) (by omega)]
  rw [if_neg (by simp only [FILA_ENCABEZADO]; omega)]
  rw [getCell_setCell (by simp only [FILA_ENCABEZADO]; omega) (by omega)]
  rw [if_neg (by simp only [FILA_ENCABEZADO]; omega)]
  rw [getCell_escribirDatosDesde _ _ _ _ _ (Nat.le_refl 1) (by omega)]
  rw [if_pos (by simp only [FILA_ENCABEZADO, length_ordenaDesc]; omega)]
  have e1 : 11 + j - FILA_ENCABEZADO = j + 1 := by simp only [FILA_ENCABEZADO]; omega
  rw [e1, Nat.add_sub_cancel]

theorem getCell_hojaFinal_fin (datos : List Audiencia) (s : Hoja) (c : Nat)
    (hc1 : 1 ≤ c) (hc6 : c ≤ 6) :
    getCell (hojaFinal datos s) (11 + datos.length) c = "" := by
  simp only [hojaFinal, length_ordenaDesc]
  rw [getCell_escribeTotalesMotivos _ _ _ _ _ (by omega) (by omega)]
  rw [if_neg (by simp only [FILA_ENCABEZADO]; omega)]
  rw [getCell_setCell (by simp only [FILA_ENCABEZADO]; omega) (by omega)]
  rw [if_neg (by simp only [FILA_ENCABEZADO, COL_REALIZADO_NO]; omega)]
  rw [getCell_setCell (by simp only [FILA_ENCABEZADO]; omega) (by omega)]
  rw [if_neg (by simp only [FILA_ENCABEZADO, COL_REALIZADO_SI]; omega)]
  rw [getCell_escribirDatosDesde _ _ _ _ _ (Nat.le_refl 1) (by omega)]
  rw [if_neg (by simp only [FILA_ENCABEZADO, length_ordenaDesc]; omega)]
  exact getCell_take_bajo (by simp only [FILA_ENCABEZADO]; omega) _

theorem getCell_hojaFinal_totales (datos : List Audiencia) (s : Hoja) :
    getCell (hojaFinal datos s) (FILA_ENCABEZADO + datos.length + 1) COL_REALIZADO_SI =
      "TOTAL DE AUDIENCIAS REALIZADAS: " ++
        Nat.repr ((ordenaDesc datos).countP (fun d => d.se_realizo == "SI")) ∧
    getCell (hojaFinal datos s) (FILA_ENCABEZADO + datos.length + 1) COL_REALIZADO_NO =
      "TOTAL DE AUDIENCIAS NO REALIZADAS: " ++
        Nat.repr ((ordenaDesc datos).countP (fun d => d.se_realizo == "NO")) := by
  constructor
  · simp only [hojaFinal, length_ordenaDesc]
    rw [getCell_escribeTotalesMotivos _ _ _ _ _ (by omega)
      (by simp only [FILA_ENCABEZADO]; omega)]
    rw [if_neg (by simp only [FILA_ENCABEZADO, COL_REALIZADO_SI]; omega)]
    rw [getCell_setCell (by simp only [FILA_ENCABEZADO]; omega)
      (by simp only [FILA_ENCABEZADO]; omega)]
    rw [if_neg (by simp only [COL_REALIZADO_SI, COL_REALIZADO_NO]; omega)]
    rw [getCell_setCell (by simp only [FILA_ENCABEZADO]; omega)
      (by simp only [FILA_ENCABEZADO]; omega)]
    rw [if_pos ⟨rfl, rfl⟩]
  · simp only [hojaFinal, length_ordenaDesc]
    rw [getCell_escribeTotalesMotivos _ _ _ _ _ (by omega)
      (by simp only [FILA_ENCABEZADO]; omega)]
    rw [if_neg (by simp only [FILA_ENCABEZADO, COL_REALIZADO_NO]; omega)]
    rw [getCell_setCell (by simp only [FILA_ENCABEZADO]; omega)
      (by simp only [FILA_ENCABEZADO]; omega)]
    rw [if_pos ⟨rfl, rfl⟩]

theorem countP_filas {α : Type} (dflt : α) (l : List α) : ∀ (a : Nat) (q : Nat → Bool) (p : α → Bool),
    (∀ j, j < l.length → q (a + j) = p (l.getD j dflt)) →
    (List.range' a l.length).countP q = l.countP p := by
  induction l with
  | nil => intro a q p _; rfl
  | cons x xs ih =>
    intro a q p h
    rw [List.length_cons, List.range'_succ]
    rw [List.countP_cons, List.countP_cons]
    rw [ih (a + 1) q p ?_]
    · have h0 := h 0 (by simp)
      simp only [Nat.add_zero, List.getD_cons_zero] at h0
      rw [h0]
    · intro j hj
      have := h (j + 1) (by simp only [List.length_cons]; omega)
      rw [show a + (j + 1) = a + 1 + j by omega, List.getD_cons_succ] at this
      exact this

theorem conteoMotivo_registros (datos : List Audiencia) (s : Hoja)
    (tSi tNo : String) (k : Nat) (hk : k < 8) :
    conteoMotivo
      (setCell (setCell (escribirDatosDesde 1 (s.take FILA_ENCABEZADO) (ordenaDesc datos))
        (FILA_ENCABEZADO + (ordenaDesc datos).length + 1) COL_REALIZADO_SI tSi)
        (FILA_ENCABEZADO + (ordenaDesc datos).length + 1) COL_REALIZADO_NO tNo)
      (FILA_ENCABEZADO + (ordenaDesc datos).length + 1) (9 + k) =
    (ordenaDesc datos).countP
      (fun d => d.se_realizo == "NO" && d.motivos.getD k "" != "") := by
  unfold conteoMotivo
  have hlen : FILA_ENCABEZADO + (ordenaDesc datos).length + 1 - (FILA_ENCABEZADO + 1) =
      (ordenaDesc datos).length := by omega
  rw [hlen]
  apply countP_filas audienciaVacia (ordenaDesc datos) (FILA_ENCABEZADO + 1)
  intro j hj
  have hcel : ∀ c, 1 ≤ c → c ≤ 17 →
      getCell (setCell (setCell (escribirDatosDesde 1 (s.take FILA_ENCABEZADO) (ordenaDesc datos))
        (FILA_ENCABEZADO + (ordenaDesc datos).length + 1) COL_REALIZADO_SI tSi)
        (FILA_ENCABEZADO + (ordenaDesc datos).length + 1) COL_REALIZADO_NO tNo)
        (FILA_ENCABEZADO + 1 + j) c =
      campoCelda (j + 1) ((ordenaDesc datos).getD j audienciaVacia) c := by
    intro c hc1 hc17
    rw [getCell_setCell (by simp only [FILA_ENCABEZADO]; omega)
      (by simp only [FILA_ENCABEZADO]; omega)]
    rw [if_neg (by simp only [FILA_ENCABEZADO]; omega)]
    rw [getCell_setCell (by simp only [FILA_ENCABEZADO]; omega)
      (by simp only [FILA_ENCABEZADO]; omega)]
    rw [if_neg (by simp only [FILA_ENCABEZADO]; omega)]
    rw [getCell_escribirDatosDesde _ _ _ _ _ (Nat.le_refl 1)
      (by simp only [FILA_ENCABEZADO]; omega)]
    rw [if_pos (by simp only [FILA_ENCABEZADO]; omega)]
    have e1 : FILA_ENCABEZADO + 1 + j - FILA_ENCABEZADO = j + 1 := by
      simp only [FILA_ENCABEZADO]; omega
    rw [e1, Nat.add_sub_cancel]
  rw [hcel COL_REALIZADO_NO (by simp only [COL_REALIZADO_NO]; omega)
      (by simp only [COL_REALIZADO_NO]; omega),
    hcel (9 + k) (by omega) (by omega)]
  rw [show COL_REALIZADO_NO = 8 from rfl, campoCelda_c8, campoCelda_motivo _ _ _ hk]
  generalize (ordenaDesc datos).getD j audienciaVacia = dj
  by_cases hno : dj.se_realizo = "NO"
  · simp [hno]
  · simp [hno]

theorem getCell_hojaFinal_motivo (datos : List Audiencia) (s : Hoja) (k : Nat) (hk : k < 8) :
    getCell (hojaFinal datos s) (FILA_ENCABEZADO + datos.length + 2) (9 + k) =
      nombresMotivos.getD k "" ++ ": " ++
        Nat.repr ((ordenaDesc datos).countP
          (fun d => d.se_realizo == "NO" && d.motivos.getD k "" != "")) := by
  simp only [hojaFinal, length_ordenaDesc]
  rw [getCell_escribeTotalesMotivos _ _ _ _ _ (by omega)
    (by simp only [FILA_ENCABEZADO]; omega)]
  rw [if_pos ⟨by omega, by omega, by omega⟩]
  rw [Nat.add_sub_cancel_left]
  have := conteoMotivo_registros datos s
    ("TOTAL DE AUDIENCIAS REALIZADAS: " ++
      Nat.repr ((ordenaDesc datos).countP (fun d => d.se_realizo == "SI")))
    ("TOTAL DE AUDIENCIAS NO REALIZADAS: " ++
      Nat.repr ((ordenaDesc datos).countP (fun d => d.se_realizo == "NO"))) k hk
  rw [length_ordenaDesc] at this
  rw [this]

theorem length_escribeTotalesMotivos (s : Hoja) (fT fTM : Nat) :
    (escribeTotalesMotivos s fT fTM).length = max s.length fTM := by
  have hrange : List.range 8 = [0, 1, 2, 3, 4, 5, 6, 7] := rfl
  simp only [escribeTotalesMotivos, hrange, List.foldl_cons, List.foldl_nil, length_setCell]
  omega

theorem length_hojaFinal_ge (datos : List Audiencia) (s : Hoja) :
    FILA_ENCABEZADO + datos.length + 2 ≤ (hojaFinal datos s).length := by
  simp only [hojaFinal, length_ordenaDesc, length_escribeTotalesMotivos, length_setCell]
  omega

theorem listaValidada_ok_pointwise {datos : List Audiencia}
    (h : listaValidada datos = .ok datos) : ∀ d ∈ datos, checarAudiencia d = .ok d := by
  induction datos with
  | nil => intro d hd; simp at hd
  | cons d ds ih =>
    intro a ha
    simp only [listaValidada] at h
    rcases hc : checarAudiencia d with e | dv
    · rw [hc] at h
      simp at h
    · rw [hc] at h
      rcases hl : listaValidada ds with e | dvs
      · rw [hl] at h
        simp at h
      · rw [hl] at h
        simp only [Except.ok.injEq, List.cons.injEq] at h
        rcases h with ⟨hdv, hdvs⟩
        rcases List.mem_cons.mp ha with rfl | ha
        · rw [hc, hdv]
        · exact ih (by rw [hl, hdvs]) a ha

theorem valido_en_ordenados {datos : List Audiencia}
    (hval : ∀ d ∈ datos, checarAudiencia d = .ok d) :
    ∀ d ∈ ordenaDesc datos, d.radicado ≠ "" ∧ (d.se_realizo = "SI" ∨ d.se_realizo = "NO") := by
  intro d hd
  have hmem : d ∈ datos := (ordenaDesc_perm datos).mem_iff.mp hd
  exact validar_ok_campos (checar_ok_partes (hval d hmem)).1

theorem leer_hojaFinal (datos : List Audiencia) (s : Hoja)
    (hval : ∀ d ∈ datos, checarAudiencia d = .ok d) :
    leerAudiencias (hojaFinal datos s) = (ordenaDesc datos).map rellena8 := by
  unfold leerAudiencias
  apply leerDesde_filas (hojaFinal datos s) (ordenaDesc datos) (FILA_ENCABEZADO + 1)
    ((hojaFinal datos s).length + 1) (by decide)
  · intro j hj c hc1 hc17
    have hdato := getCell_hojaFinal_dato datos s j c
      (by rw [length_ordenaDesc] at hj; exact hj) hc1 hc17
    have e1 : FILA_ENCABEZADO + 1 + j = 11 + j := by simp only [FILA_ENCABEZADO]
    have e2 : 11 + j - 10 = j + 1 := by omega
    rw [e1, e2, hdato]
  · have hfin := getCell_hojaFinal_fin datos s COL_RADICADO (by decide) (by decide)
    have e1 : FILA_ENCABEZADO + 1 + (ordenaDesc datos).length = 11 + datos.length := by
      simp only [FILA_ENCABEZADO, length_ordenaDesc]
    rw [e1, hfin]
  · exact valido_en_ordenados hval
  · have := length_hojaFinal_ge datos s
    rw [length_ordenaDesc]
    omega

theorem clave_rellena8 (d : Audiencia) : claveDe (rellena8 d) = claveDe d := rfl

/-! ## Claims about replace-all (guardar_audiencias_excel) -/

/-- Concrete inputs used by counterexamples and witnesses: a fresh
ten-row sheet (header region only) and small valid records. -/
def s10 : Hoja := List.replicate 10 filaVacia

def regUno : Audiencia :=
  { radicado := "R-1", tipo_audiencia := "Otra", fecha := "25/07/2024", hora := "10:00",
    juzgado := "Juzgado 1", se_realizo := "SI", motivos := ["Juez"], observaciones := "" }

def regDos : Audiencia :=
  { radicado := "R-2", tipo_audiencia := "Audiencia preliminar", fecha := "26/07/2024",
    hora := "09:30", juzgado := "Juzgado 2", se_realizo := "NO",
    motivos := ["", "Fiscalía", "", "", "", "", "", ""], observaciones := "obs" }

set_option maxHeartbeats 4000000 in
/-- C1 (counterexample): the round trip does not return the record that
was written: a record whose reasons list has fewer than eight entries
comes back with the list padded to eight slots, so read-all after
replace-all is not the identity on records keyed by case_id. -/
theorem c1_contraejemplo :
    esOk (guardarAudienciasExcel [regUno] s10) = true ∧
    leerAudiencias (persistido s10 (guardarAudienciasExcel [regUno] s10)) =
      [rellena8 regUno] ∧
    rellena8 regUno ≠ regUno ∧
    regUno ∉ leerAudiencias (persistido s10 (guardarAudienciasExcel [regUno] s10)) := by
  refine ⟨by decide, by decide, by decide, by decide⟩

/-- C1 (amended): for every ledger sheet whose max_row stays under the
row ceiling and every list of at most 287 records that are fixed points
of validation (already normalized) and parse, replace-all succeeds and
read-all returns exactly the written records — sorted, and with each
record's reasons list padded or truncated to the eight positional slots
(rellena8); as a multiset the result is the input list mapped through
rellena8, so keyed by case_id each case_id maps to its record with the
reasons normalized to eight slots.  Records whose reasons list already
has exactly eight entries round-trip verbatim. -/
theorem c1_ida_y_vuelta (datos : List Audiencia) (s : Hoja)
    (hL : s.length ≤ MAX_FILA_PERMITIDA - 1)
    (hv : listaValidada datos = .ok datos)
    (hn : datos.length ≤ 287) :
    esOk (guardarAudienciasExcel datos s) = true ∧
    leerAudiencias (persistido s (guardarAudienciasExcel datos s)) =
      (ordenaDesc datos).map rellena8 ∧
    (leerAudiencias (persistido s (guardarAudienciasExcel datos s))).Perm
      (datos.map rellena8) := by
  have hg := guardar_eq_hojaFinal datos s hL hv hn
  rw [hg]
  simp only [persistido]
  have hleer := leer_hojaFinal datos s (listaValidada_ok_pointwise hv)
  refine ⟨rfl, hleer, ?_⟩
  rw [hleer]
  exact (ordenaDesc_perm datos).map rellena8

set_option maxHeartbeats 4000000 in
theorem c1_testigo :
    s10.length ≤ MAX_FILA_PERMITIDA - 1 ∧
    listaValidada [regUno, regDos] = .ok [regUno, regDos] ∧
    [regUno, regDos].length ≤ 287 ∧
    (esOk (guardarAudienciasExcel [regUno, regDos] s10) = true ∧
      leerAudiencias (persistido s10 (guardarAudienciasExcel [regUno, regDos] s10)) =
        (ordenaDesc [regUno, regDos]).map rellena8 ∧
      (leerAudiencias (persistido s10 (guardarAudienciasExcel [regUno, regDos] s10))).Perm
        ([regUno, regDos].map rellena8)) :=
  ⟨by decide, rfl, by decide,
    c1_ida_y_vuelta [regUno, regDos] s10 (by decide) rfl (by decide)⟩

/-- C2: after a successful replace-all the data region holds the records
in non-increasing order of their parsed date+time instant, and the sort
is stable: for every instant value, the records carrying that instant
appear in exactly their input order.  (claveDe is the encoded parsed
instant; the filter equation is the standard statement of stability.) -/
theorem c2_orden_estable (datos : List Audiencia) (s : Hoja)
    (hL : s.length ≤ MAX_FILA_PERMITIDA - 1)
    (hv : listaValidada datos = .ok datos)
    (hn : datos.length ≤ 287) :
    esOk (guardarAudienciasExcel datos s) = true ∧
    (leerAudiencias (persistido s (guardarAudienciasExcel datos s))).Pairwise
      (fun a b => claveDe b ≤ claveDe a) ∧
    (∀ k : Nat,
      (leerAudiencias (persistido s (guardarAudienciasExcel datos s))).filter
          (fun d => claveDe d == k) =
        (datos.filter (fun d => claveDe d == k)).map rellena8) := by
  have hg := guardar_eq_hojaFinal datos s hL hv hn
  rw [hg]
  simp only [persistido]
  have hleer := leer_hojaFinal datos s (listaValidada_ok_pointwise hv)
  rw [hleer]
  refine ⟨rfl, ?_, ?_⟩
  · rw [List.pairwise_map]
    simp only [clave_rellena8]
    exact ordenaDesc_pairwise datos
  · intro k
    rw [List.filter_map]
    have hpf : ((fun d => claveDe d == k) ∘ rellena8) = (fun d => claveDe d == k) := by
      funext d
      simp [Function.comp, clave_rellena8]
    rw [hpf, ordenaDesc_filter_clave]

set_option maxHeartbeats 4000000 in
theorem c2_testigo :
    s10.length ≤ MAX_FILA_PERMITIDA - 1 ∧
    listaValidada [regUno, regDos] = .ok [regUno, regDos] ∧
    [regUno, regDos].length ≤ 287 ∧
    (esOk (guardarAudienciasExcel [regUno, regDos] s10) = true ∧
      (leerAudiencias (persistido s10 (guardarAudienciasExcel [regUno, regDos] s10))).Pairwise
        (fun a b => claveDe b ≤ claveDe a) ∧
      (∀ k : Nat,
        (leerAudiencias (persistido s10 (guardarAudienciasExcel [regUno, regDos] s10))).filter
            (fun d => claveDe d == k) =
          ([regUno, regDos].filter (fun d => claveDe d == k)).map rellena8)) :=
  ⟨by decide, rfl, by decide,
    c2_orden_estable [regUno, regDos] s10 (by decide) rfl (by decide)⟩

/-- C3: after a successful replace-all, the totals row (directly under
the last data row) reads exactly the number H of held="SI" records and
the number M of held="NO" records of the input, and each of the eight
per-reason cells counts exactly the held="NO" records whose reason slot
at that position is non-empty — reasons of held="SI" records are never
counted. -/
theorem c3_totales (datos : List Audiencia) (s : Hoja)
    (hL : s.length ≤ MAX_FILA_PERMITIDA - 1)
    (hv : listaValidada datos = .ok datos)
    (hn : datos.length ≤ 287) :
    esOk (guardarAudienciasExcel datos s) = true ∧
    getCell (persistido s (guardarAudienciasExcel datos s))
        (FILA_ENCABEZADO + datos.length + 1) COL_REALIZADO_SI =
      "TOTAL DE AUDIENCIAS REALIZADAS: " ++
        Nat.repr (datos.countP (fun d => d.se_realizo == "SI")) ∧
    getCell (persistido s (guardarAudienciasExcel datos s))
        (FILA_ENCABEZADO + datos.length + 1) COL_REALIZADO_NO =
      "TOTAL DE AUDIENCIAS NO REALIZADAS: " ++
        Nat.repr (datos.countP (fun d => d.se_realizo == "NO")) ∧
    (∀ k : Nat, k < 8 →
      getCell (persistido s (guardarAudienciasExcel datos s))
          (FILA_ENCABEZADO + datos.length + 2) (COL_MOTIVOS_INICIAL + k) =
        nombresMotivos.getD k "" ++ ": " ++
          Nat.repr (datos.countP
            (fun d => d.se_realizo == "NO" && d.motivos.getD k "" != ""))) := by
  have hg := guardar_eq_hojaFinal datos s hL hv hn
  rw [hg]
  simp only [persistido]
  have hperm := ordenaDesc_perm datos
  refine ⟨rfl, ?_, ?_, ?_⟩
  · rw [(getCell_hojaFinal_totales datos s).1, hperm.countP_eq]
  · rw [(getCell_hojaFinal_totales datos s).2, hperm.countP_eq]
  · intro k hk
    rw [show COL_MOTIVOS_INICIAL + k = 9 + k from rfl]
    rw [getCell_hojaFinal_motivo datos s k hk, hperm.countP_eq]

set_option maxHeartbeats 4000000 in
theorem c3_testigo :
    s10.length ≤ MAX_FILA_PERMITIDA - 1 ∧
    listaValidada [regUno, regDos] = .ok [regUno, regDos] ∧
    [regUno, regDos].length ≤ 287 ∧
    (esOk (guardarAudienciasExcel [regUno, regDos] s10) = true ∧
      getCell (persistido s10 (guardarAudienciasExcel [regUno, regDos] s10))
          (FILA_ENCABEZADO + 2 + 1) COL_REALIZADO_SI =
        "TOTAL DE AUDIENCIAS REALIZADAS: " ++
          Nat.repr ([regUno, regDos].countP (fun d => d.se_realizo == "SI")) ∧
      getCell (persistido s10 (guardarAudienciasExcel [regUno, regDos] s10))
          (FILA_ENCABEZADO + 2 + 1) COL_REALIZADO_NO =
        "TOTAL DE AUDIENCIAS NO REALIZADAS: " ++
          Nat.repr ([regUno, regDos].countP (fun d => d.se_realizo == "NO")) ∧
      (∀ k : Nat, k < 8 →
        getCell (persistido s10 (guardarAudienciasExcel [regUno, regDos] s10))
            (FILA_ENCABEZADO + 2 + 2) (COL_MOTIVOS_INICIAL + k) =
          nombresMotivos.getD k "" ++ ": " ++
            Nat.repr ([regUno, regDos].countP
              (fun d => d.se_realizo == "NO" && d.motivos.getD k "" != "")))) :=
  ⟨by decide, rfl, by decide,
    c3_totales [regUno, regDos] s10 (by decide) rfl (by decide)⟩

/-! ## Claims about failure behaviour -/

theorem esOk_false_error {α : Type} {x : Except String α} (h : esOk x = false) :
    ∃ e, x = .error e := by
  cases x with
  | error e => exact ⟨e, rfl⟩
  | ok a => simp [esOk] at h

/-- C4: append-one on a record whose case_id equals the case_id of a
record already in the file's data region fails with the duplicate-
radicado ValueError and, since wb.save is never reached, the stored
file keeps its previous contents.  (The source compares stripped
radicados, which equal radicados in particular satisfy.) -/
theorem c4_duplicado (d : Audiencia) (s : Hoja)
    (h : ∃ a ∈ leerAudiencias s, a.radicado = d.radicado) :
    guardarUnaAudienciaExcel d s =
      .error ("Ya existe una audiencia con el radicado \x27" ++ pyStrip d.radicado ++ "\x27.") ∧
    persistidoUna s (guardarUnaAudienciaExcel d s) = s := by
  rcases h with ⟨a, ha, hrad⟩
  have hdup : (leerAudiencias s).any
      (fun b => pyStrip b.radicado == pyStrip d.radicado) = true := by
    rw [List.any_eq_true]
    exact ⟨a, ha, by rw [hrad]; exact beq_self_eq_true _⟩
  have heq : guardarUnaAudienciaExcel d s =
      .error ("Ya existe una audiencia con el radicado \x27" ++ pyStrip d.radicado ++ "\x27.") := by
    simp only [guardarUnaAudienciaExcel, hdup, if_true]
  exact ⟨heq, by rw [heq]; rfl⟩

/-- Sheet with one existing data row whose radicado is "R-1", used as a
duplicate-rejection witness input. -/
def s11 : Hoja :=
  List.replicate 10 filaVacia ++ [fun c => if c = 2 then "R-1" else ""]

set_option maxHeartbeats 1000000 in
theorem c4_testigo :
    (∃ a ∈ leerAudiencias s11, a.radicado = regUno.radicado) ∧
    (guardarUnaAudienciaExcel regUno s11 =
      .error ("Ya existe una audiencia con el radicado \x27" ++ pyStrip regUno.radicado ++ "\x27.") ∧
    persistidoUna s11 (guardarUnaAudienciaExcel regUno s11) = s11) :=
  ⟨by decide, c4_duplicado regUno s11 (by decide)⟩

/-- C5: replace-all on a list containing at least one invalid record
(one that validation or date parsing rejects) raises before wb.save, so
the call fails and the stored file is exactly what it was: validation of
every record happens before the save, and nothing earlier than the save
is persisted. -/
theorem c5_atomicidad (datos : List Audiencia) (s : Hoja)
    (h : ∃ d ∈ datos, esOk (checarAudiencia d) = false) :
    esOk (guardarAudienciasExcel datos s) = false ∧
    persistido s (guardarAudienciasExcel datos s) = s := by
  have h2 : ∃ d ∈ datos, ∃ e, checarAudiencia d = .error e := by
    rcases h with ⟨d, hd, he⟩
    exact ⟨d, hd, esOk_false_error he⟩
  rcases listaValidada_falla h2 with ⟨e, he⟩
  have heq : guardarAudienciasExcel datos s = .error e := by
    simp only [guardarAudienciasExcel, he]
  rw [heq]
  exact ⟨rfl, rfl⟩

/-- Record with an unparseable date (February 31st), otherwise valid. -/
def regFechaMala : Audiencia :=
  { regUno with radicado := "R-3", fecha := "31/02/2024" }

set_option maxHeartbeats 1000000 in
theorem c5_testigo :
    (∃ d ∈ [regUno, regFechaMala], esOk (checarAudiencia d) = false) ∧
    (esOk (guardarAudienciasExcel [regUno, regFechaMala] s10) = false ∧
      persistido s10 (guardarAudienciasExcel [regUno, regFechaMala] s10) = s10) :=
  ⟨by decide, c5_atomicidad [regUno, regFechaMala] s10 (by decide)⟩

/-- C6: with valid records but a list so large that the totals row would
land at or past row 300 (288 or more records already put the per-reason
row at or past the ceiling; 290 or more put the totals row past it),
replace-all raises one of the two capacity ValueErrors before wb.save,
and the stored file is unmodified. -/
theorem c6_techo (datos : List Audiencia) (s : Hoja)
    (hv : listaValidada datos = .ok datos)
    (hn : 288 ≤ datos.length) :
    esOk (guardarAudienciasExcel datos s) = false ∧
    persistido s (guardarAudienciasExcel datos s) = s ∧
    (guardarAudienciasExcel datos s =
        .error "Demasiadas audiencias: podrías sobrescribir la firma del defensor." ∨
      guardarAudienciasExcel datos s =
        .error ("No hay espacio suficiente para escribir los totales de motivos " ++
          "sin sobrescribir la firma del defensor.")) := by
  by_cases h290 : 290 ≤ datos.length
  · have heq : guardarAudienciasExcel datos s =
        .error "Demasiadas audiencias: podrías sobrescribir la firma del defensor." := by
      simp only [guardarAudienciasExcel, hv, length_ordenaDesc]
      rw [if_pos (by simp only [MAX_FILA_PERMITIDA, FILA_ENCABEZADO]; omega)]
    rw [heq]
    exact ⟨rfl, rfl, Or.inl rfl⟩
  · have heq : guardarAudienciasExcel datos s =
        .error ("No hay espacio suficiente para escribir los totales de motivos " ++
          "sin sobrescribir la firma del defensor.") := by
      simp only [guardarAudienciasExcel, hv, length_ordenaDesc]
      rw [if_neg (by simp only [MAX_FILA_PERMITIDA, FILA_ENCABEZADO]; omega)]
      rw [if_pos (by simp only [MAX_FILA_PERMITIDA, FILA_ENCABEZADO]; omega)]
    rw [heq]
    exact ⟨rfl, rfl, Or.inr rfl⟩

set_option maxHeartbeats 1000000 in
theorem c6_testigo :
    listaValidada (List.replicate 288 regUno) = .ok (List.replicate 288 regUno) ∧
    288 ≤ (List.replicate 288 regUno).length ∧
    (esOk (guardarAudienciasExcel (List.replicate 288 regUno) s10) = false ∧
      persistido s10 (guardarAudienciasExcel (List.replicate 288 regUno) s10) = s10 ∧
      (guardarAudienciasExcel (List.replicate 288 regUno) s10 =
          .error "Demasiadas audiencias: podrías sobrescribir la firma del defensor." ∨
        guardarAudienciasExcel (List.replicate 288 regUno) s10 =
          .error ("No hay espacio suficiente para escribir los totales de motivos " ++
            "sin sobrescribir la firma del defensor."))) := by
  have hv : listaValidada (List.replicate 288 regUno) = .ok (List.replicate 288 regUno) :=
    listaValidada_fija (fun d hd => by rw [List.eq_of_mem_replicate hd]; rfl)
  exact ⟨hv, by rw [List.length_replicate], c6_techo (List.replicate 288 regUno) s10 hv
    (by rw [List.length_replicate])⟩

/-! ## Claims about the row ceiling and the export stage -/

/-- A ledger sheet whose row 300 (the first row at the ceiling) holds
content in column A, e.g. a signature. -/
def filaConFirma : Fila := fun c => if c = 1 then "FIRMA" else ""

def s300 : Hoja := List.replicate 299 filaVacia ++ [filaConFirma]

set_option maxHeartbeats 4000000 in
set_option maxRecDepth 4000 in
/-- C7 (evaluation at the failing input): replace-all on a sheet whose
max_row is 300 caps the delete range at rows 11..299, but
ws.delete_rows shifts every later row upward, so the content of row 300
is moved to row 11 (where the totals row then overwrites its marker
columns) and row 300 itself ends up empty: rows at or after the ceiling
ARE moved and modified, contradicting the claim and the source's own
comment that the signature is preserved. -/
theorem c7_desplaza_fila_300 :
    getCell s300 300 1 = "FIRMA" ∧
    esOk (guardarAudienciasExcel [] s300) = true ∧
    getCell (persistido s300 (guardarAudienciasExcel [] s300)) 300 1 = "" ∧
    getCell (persistido s300 (guardarAudienciasExcel [] s300)) 11 1 = "FIRMA" := by
  refine ⟨by decide, by decide, by decide, by decide⟩

/-- A saved one-record ledger (record held="NO" with a reason in the
second slot): data row 11, totals row 12, per-reason totals row 13. -/
def hojaGuardada : Hoja := persistido s10 (guardarAudienciasExcel [regDos] s10)

set_option maxHeartbeats 4000000 in
/-- C8 (evaluation at the failing input): the export scan advances past
rows whose marker columns G/H are non-empty, which the per-reason totals
row is not (it only fills columns I..P), so the signature row lands ON
the per-reason totals row: its label is written there and the A..Q merge
erases the reason counts.  The exported copy's aggregate rows are
therefore not content-equal to the source's, contradicting the claim
and the source's own comment ("Avanza más allá de los totales y
motivos"). -/
theorem c8_pisa_fila_motivos :
    esOk (guardarAudienciasExcel [regDos] s10) = true ∧
    getCell hojaGuardada 13 10 = "Fiscalía: 1" ∧
    filaFirma hojaGuardada = 13 ∧
    getCell (exportarConFirmaHoja hojaGuardada) 13 1 = textoFirma ∧
    getCell (exportarConFirmaHoja hojaGuardada) 13 10 = "" := by
  refine ⟨by decide, by decide, by decide, by decide, by decide⟩

/-! ## Claim about the validator -/

/-- C9: the validator contract.  First implication: validation fails
(raises ValueError) whenever a required field is missing/empty, the
normalized (stripped) hearing type is not in the fixed 18-label set, or
strip().upper() of held is not one of the canonical labels SI/NO (the
Spanish counterparts of the spec's "yes"/"no").  Second implication: on
inputs passing all three checks, validation succeeds and returns the
record normalized in place: held uppercase-canonical, hearing type
trimmed. -/
theorem c9_validador (d : Audiencia) :
    ((d.radicado = "" ∨ d.tipo_audiencia = "" ∨ d.fecha = "" ∨ d.hora = "" ∨
      d.juzgado = "" ∨ d.se_realizo = "" ∨
      pyStrip d.tipo_audiencia ∉ TIPOS_AUDIENCIA_VALIDOS ∨
      ¬ (pyUpper (pyStrip d.se_realizo) = "SI" ∨ pyUpper (pyStrip d.se_realizo) = "NO")) →
      esOk (validarCamposAudiencia d) = false) ∧
    ((d.radicado ≠ "" ∧ d.tipo_audiencia ≠ "" ∧ d.fecha ≠ "" ∧ d.hora ≠ "" ∧
      d.juzgado ≠ "" ∧ d.se_realizo ≠ "" ∧
      pyStrip d.tipo_audiencia ∈ TIPOS_AUDIENCIA_VALIDOS ∧
      (pyUpper (pyStrip d.se_realizo) = "SI" ∨ pyUpper (pyStrip d.se_realizo) = "NO")) →
      validarCamposAudiencia d =
        .ok { d with se_realizo := pyUpper (pyStrip d.se_realizo),
                     tipo_audiencia := pyStrip d.tipo_audiencia }) := by
  have hmem : (pyStrip d.tipo_audiencia ∈ TIPOS_AUDIENCIA_VALIDOS) ↔
      (TIPOS_AUDIENCIA_VALIDOS.contains (pyStrip d.tipo_audiencia) = true) :=
    List.elem_iff.symm
  simp only [validarCamposAudiencia, hmem]
  split_ifs with h1 h2 h3 h4 h5 h6 h7 h8 <;>
    refine ⟨?_, ?_⟩ <;> intro h
  all_goals first
    | rfl
    | (exfalso; tauto)

def registroBueno : Audiencia :=
  { radicado := "RAD-9", tipo_audiencia := " Otra ", fecha := "01/02/2024", hora := "08:00",
    juzgado := "Juzgado 9", se_realizo := " si", motivos := [], observaciones := "" }

def registroTipoMalo : Audiencia :=
  { registroBueno with tipo_audiencia := "Zumba" }

set_option maxHeartbeats 1000000 in
theorem c9_testigo :
    esOk (validarCamposAudiencia registroTipoMalo) = false ∧
    validarCamposAudiencia registroBueno =
      .ok { registroBueno with
              se_realizo := pyUpper (pyStrip registroBueno.se_realizo),
              tipo_audiencia := pyStrip registroBueno.tipo_audiencia } :=
  ⟨(c9_validador registroTipoMalo).1 (by decide),
   (c9_validador registroBueno).2 (by decide)⟩

/-! ## Claim about same-day exports -/

theorem isPrefixOf_length_le {α : Type} [BEq α] :
    ∀ (l1 l2 : List α), l1.isPrefixOf l2 = true → l1.length ≤ l2.length
  | [], _, _ => Nat.zero_le _
  | a :: as, [], h => by simp [List.isPrefixOf] at h
  | a :: as, b :: bs, h => by
    simp only [List.isPrefixOf, Bool.and_eq_true] at h
    simpa using isPrefixOf_length_le as bs h.2

theorem aseguraXlsx_len (n : String) : 5 ≤ (aseguraXlsx n).length := by
  unfold aseguraXlsx pyEndsWith
  by_cases h : ((".xlsx" : String).data.reverse.isPrefixOf n.data.reverse) = true
  · rw [if_pos h]
    have hlen := isPrefixOf_length_le _ _ h
    rw [List.length_reverse, List.length_reverse] at hlen
    have h5 : (".xlsx" : String).data.length = 5 := rfl
    rw [h5] at hlen
    exact hlen
  · rw [if_neg h]
    rw [String.length_append]
    have h5 : (".xlsx" : String).length = 5 := rfl
    omega

theorem stemXlsx_len (m : String) : (stemXlsx m).length = m.length - 5 := by
  unfold stemXlsx
  show (m.data.take (m.data.length - 5)).length = m.length - 5
  rw [List.length_take]
  show min (m.data.length - 5) m.data.length = m.data.length - 5
  omega

theorem destino_ne_fuente (nombre hoy : String) :
    rutaEn (nombreExportado nombre hoy) ≠ rutaEn (aseguraXlsx nombre) := by
  intro h
  unfold rutaEn at h
  have hl := congrArg String.length h
  rw [String.length_append, String.length_append] at hl
  unfold nombreExportado at hl
  rw [String.length_append, String.length_append, String.length_append, stemXlsx_len] at hl
  have h5 := aseguraXlsx_len nombre
  have h11 : ("_exportado_" : String).length = 11 := rfl
  have hx : (".xlsx" : String).length = 5 := rfl
  omega

/-- C10: the exported file's path is derived only from the source name
and the supplied calendar date; export performs no existence check on
the destination.  Exporting twice on the same day therefore produces the
same destination path both times, the second call succeeds (no error)
even though the destination already holds the first export, and the
store afterwards maps that path to the freshly signed copy — the second
export silently replaces the first. -/
theorem c10_export_mismo_dia (store : Almacen) (nombre hoy : String) (s : Hoja)
    (h : store (rutaEn (aseguraXlsx nombre)) = some s) :
    exportarConFirma store nombre hoy =
      .ok (fun k => if k = rutaEn (nombreExportado nombre hoy)
                    then some (exportarConFirmaHoja s) else store k,
           rutaEn (nombreExportado nombre hoy)) ∧
    exportarConFirma
        (fun k => if k = rutaEn (nombreExportado nombre hoy)
                  then some (exportarConFirmaHoja s) else store k) nombre hoy =
      .ok (fun k => if k = rutaEn (nombreExportado nombre hoy)
                    then some (exportarConFirmaHoja s)
                    else if k = rutaEn (nombreExportado nombre hoy)
                         then some (exportarConFirmaHoja s) else store k,
           rutaEn (nombreExportado nombre hoy)) ∧
    (fun k => if k = rutaEn (nombreExportado nombre hoy)
              then some (exportarConFirmaHoja s) else store k)
        (rutaEn (nombreExportado nombre hoy)) = some (exportarConFirmaHoja s) := by
  have hne := destino_ne_fuente nombre hoy
  refine ⟨?_, ?_, ?_⟩
  · simp only [exportarConFirma, h]
  · have h2 : (fun k => if k = rutaEn (nombreExportado nombre hoy)
        then some (exportarConFirmaHoja s) else store k)
          (rutaEn (aseguraXlsx nombre)) = some s := by
      show (if rutaEn (aseguraXlsx nombre) = rutaEn (nombreExportado nombre hoy)
            then some (exportarConFirmaHoja s)
            else store (rutaEn (aseguraXlsx nombre))) = some s
      rw [if_neg (fun hc => hne hc.symm)]
      exact h
    simp only [exportarConFirma, h2]
  · show (if rutaEn (nombreExportado nombre hoy) = rutaEn (nombreExportado nombre hoy)
          then some (exportarConFirmaHoja s)
          else store (rutaEn (nombreExportado nombre hoy))) = some (exportarConFirmaHoja s)
    rw [if_pos rfl]

/-- A store holding the fresh ledger at every path, so the destination
of the export exists beforehand. -/
def almacenTodo : Almacen := fun _ => some s10

theorem c10_testigo :
    almacenTodo (rutaEn (aseguraXlsx "caso")) = some s10 ∧
    (exportarConFirma almacenTodo "caso" "20261012" =
      .ok (fun k => if k = rutaEn (nombreExportado "caso" "20261012")
                    then some (exportarConFirmaHoja s10) else almacenTodo k,
           rutaEn (nombreExportado "caso" "20261012")) ∧
    exportarConFirma
        (fun k => if k = rutaEn (nombreExportado "caso" "20261012")
                  then some (exportarConFirmaHoja s10) else almacenTodo k) "caso" "20261012" =
      .ok (fun k => if k = rutaEn (nombreExportado "caso" "20261012")
                    then some (exportarConFirmaHoja s10)
                    else if k = rutaEn (nombreExportado "caso" "20261012")
                         then some (exportarConFirmaHoja s10) else almacenTodo k,
           rutaEn (nombreExportado "caso" "20261012")) ∧
    (fun k => if k = rutaEn (nombreExportado "caso" "20261012")
              then some (exportarConFirmaHoja s10) else almacenTodo k)
        (rutaEn (nombreExportado "caso" "20261012")) = some (exportarConFirmaHoja s10)) :=
  ⟨rfl, c10_export_mismo_dia almacenTodo "caso" "20261012" s10 rfl⟩
